import Mathlib

/-!
Verification development for the nornir deployment/validation/rollback
scripts (`deploy.py` and `after_nornir_intro_pt2.py`).

The embedding models the repository code that the claims are about:

* parsed JSON device responses as the inductive `JVal`, with Python dict,
  list and string indexing semantics (`getItem`, `pyIter`, `pyLen`, ...)
  and Python exceptions as the `PyErr` error type of `Except`;
* the two netmiko test classes (`NXOSNetmikoTests.ospf_peer` and
  `EOSNetmikoTests.ospf_peer`) as `nxosOspfPeer` / `eosOspfPeer`;
* the custom `netmiko_validate` task (its platform dispatch, reserved-key
  handling and skipped branch), with the external `napalm.base.validate
  .compare` comparator abstracted as a function parameter;
* the rollback decision helper `determine_validate_fails` and the
  `__main__` stage pipeline of `deploy.py` as `runPipeline`;
* the EOS backup terminator-insertion pass of `backup_configs` as
  `eosNormalize`;
* the payload selection of `deploy_configs` as `deploy_configs`.

Device transport, template rendering, filesystem writes and the nornir
runner itself are external collaborators; their per-host outcomes enter
the model as oracle inputs (`RunEnv`).
-/

/-- A parsed JSON value, as produced by Python `json.loads`: strings,
integers, booleans, `None`, lists and string-keyed dicts (association
lists in insertion order).  JSON floats are not used by this program. -/
inductive JVal where
  | str (s : String)
  | num (n : Int)
  | bool (b : Bool)
  | null
  | arr (elems : List JVal)
  | obj (fields : List (String × JVal))

/-- The Python exceptions this program can raise once a device response
has been parsed. -/
inductive PyErr where
  | keyError
  | typeError
  | attrError
  | indexError
  | notImplementedError
  | unboundLocalError
deriving DecidableEq, Repr

/-- Python `d[key]` for a string key: dict lookup (KeyError when missing),
TypeError when the value is not a dict (string/list/int subscripting with
a string key all raise TypeError). -/
def getItem (v : JVal) (key : String) : Except PyErr JVal :=
  match v with
  | .obj fields =>
    match fields.lookup key with
    | some x => .ok x
    | none => .error .keyError
  | _ => .error .typeError

/-- Python `d[key]` where the key itself is an arbitrary parsed value:
list/dict keys are unhashable (TypeError); other non-string keys hash but
never match a JSON dict key (KeyError). -/
def getItemV (v : JVal) (key : JVal) : Except PyErr JVal :=
  match v with
  | .obj _ =>
    match key with
    | .str s => getItem v s
    | .arr _ => .error .typeError
    | .obj _ => .error .typeError
    | _ => .error .keyError
  | _ => .error .typeError

/-- Python truthiness of a parsed value. -/
def pyTruthy : JVal → Bool
  | .null => false
  | .bool b => b
  | .num n => n != 0
  | .str s => !s.isEmpty
  | .arr l => !l.isEmpty
  | .obj fs => !fs.isEmpty

/-- Python `len`: defined for strings, lists and dicts, TypeError
otherwise. -/
def pyLen : JVal → Except PyErr Nat
  | .str s => .ok s.length
  | .arr l => .ok l.length
  | .obj fs => .ok fs.length
  | _ => .error .typeError

/-- Python iteration over a parsed value: a list yields its elements, a
string its one-character substrings, a dict its keys; numbers, booleans
and `None` are not iterable. -/
def pyIter : JVal → Except PyErr (List JVal)
  | .arr l => .ok l
  | .str s => .ok (s.toList.map (fun c => JVal.str (String.singleton c)))
  | .obj fs => .ok (fs.map (fun p => JVal.str p.1))
  | _ => .error .typeError

/-- Python `str()` of a parsed value (used for `str(process_id)`). -/
def pyStrOf : JVal → String
  | .str s => s
  | .num n => toString n
  | .bool true => "True"
  | .bool false => "False"
  | .null => "None"
  | .arr _ => "<list>"
  | .obj _ => "<dict>"

/-- Python `v.replace(pat, repl)`: a string method; any non-string value
(including the `None` default of the `interface` kwarg) raises
AttributeError.  The replaced string is only ever interpolated into the
show command sent to the device (external transport), so only the
method-call failure behavior is observable here and the string is passed
through unchanged. -/
def pyReplace (v : JVal) (_pat _repl : String) : Except PyErr JVal :=
  match v with
  | .str s => .ok (.str s)
  | _ => .error .attrError

/-- Python `v.upper()`: a string method (uppercasing character by
character, ASCII like the adjacency states it is applied to),
AttributeError otherwise. -/
def pyUpper : JVal → Except PyErr String
  | .str s => .ok (String.mk (s.toList.map Char.toUpper))
  | _ => .error .attrError

/-- Python `v == w` on the values this program compares.  Scalars follow
Python semantics, including `True == 1` and `False == 0`.  The peer
filters only ever compare neighbor-entry fields (JSON scalars) against
the requested peer identity (a YAML scalar), so deep container equality
is never exercised; container operands compare unequal here. -/
def pyEq : JVal → JVal → Bool
  | .str a, .str b => a == b
  | .num a, .num b => a == b
  | .bool a, .bool b => a == b
  | .bool b, .num n => if b then n == 1 else n == 0
  | .num n, .bool b => if b then n == 1 else n == 0
  | .null, .null => true
  | _, _ => false

/-- Python `v is False`: identity with the `False` object. -/
def isPyFalse : JVal → Bool
  | .bool false => true
  | _ => false

/-- The result dict built by the `ospf_peer` methods: either
`{"error": msg}` or `{"success": {"state": st}}`. -/
inductive OspfResult where
  | err (msg : String)
  | success (state : String)
deriving DecidableEq, Repr

/-- The possible values of the local variable `peer` in the `ospf_peer`
methods just before the final `if not peer` cascade: `None`, a Python
list, or (NX-OS only, via the final `else: peer = peers` arm) the raw
parsed value itself. -/
inductive PeerHolder where
  | pyNone
  | plist (l : List JVal)
  | raw (v : JVal)

/-- Truthiness of `peer` (`if not peer`). -/
def holderTruthy : PeerHolder → Bool
  | .pyNone => false
  | .plist l => !l.isEmpty
  | .raw v => pyTruthy v

/-- Python `len(peer)`. -/
def holderLen : PeerHolder → Except PyErr Nat
  | .pyNone => .error .typeError
  | .plist l => .ok l.length
  | .raw v => pyLen v

/-- Python `peer[0]`. -/
def holderGetFirst : PeerHolder → Except PyErr JVal
  | .pyNone => .error .typeError
  | .plist [] => .error .indexError
  | .plist (x :: _) => .ok x
  | .raw (.str s) => if s.isEmpty then .error .indexError else .ok (.str (String.singleton s.front))
  | .raw (.arr []) => .error .indexError
  | .raw (.arr (x :: _)) => .ok x
  | .raw (.obj _) => .error .keyError
  | .raw _ => .error .typeError

/-- The list comprehension shared by both `ospf_peer` variants:
`[peer for peer in peers if peer[ridKey] == peer_id and peer[addrKey] ==
peer_address]`.  Each element's lookups can raise, and `and`
short-circuits, so the address field is only read when the router-id
matched. -/
def filterMatches (ridKey addrKey : String) (peer_id peer_address : JVal) :
    List JVal → Except PyErr (List JVal)
  | [] => .ok []
  | p :: rest => do
    let r ← getItem p ridKey
    if pyEq r peer_id then do
      let a ← getItem p addrKey
      if pyEq a peer_address then do
        let t ← filterMatches ridKey addrKey peer_id peer_address rest
        .ok (p :: t)
      else filterMatches ridKey addrKey peer_id peer_address rest
    else filterMatches ridKey addrKey peer_id peer_address rest

/-- The `if not peer / elif len(peer) != 1 / else` tail shared verbatim by
both `ospf_peer` methods; `stateKey` is `"state"` on NX-OS and
`"adjacencyState"` on EOS. -/
def ospfTail (peer : PeerHolder) (stateKey : String) : Except PyErr OspfResult :=
  if holderTruthy peer = false then .ok (.err "No matching peer found.")
  else
    match holderLen peer with
    | .error e => .error e
    | .ok n =>
      if n ≠ 1 then .ok (.err "Multiple peer matches, something went wrong.")
      else
        match holderGetFirst peer with
        | .error e => .error e
        | .ok p =>
          match getItem p stateKey with
          | .error e => .error e
          | .ok st =>
            match pyUpper st with
            | .error e => .error e
            | .ok up => .ok (.success up)

/-- Lines 206-209 of `deploy.py`: the NX-OS nested table access
`r["TABLE_ctx"]["ROW_ctx"]["TABLE_nbr"]["ROW_nbr"]` wrapped in
`try/except KeyError: peers = False`.  `none` models the `False`
sentinel; a TypeError inside the chain is not caught. -/
def nxosPeers (resp : JVal) : Except PyErr (Option JVal) :=
  match (do
      let a ← getItem resp "TABLE_ctx"
      let b ← getItem a "ROW_ctx"
      let c ← getItem b "TABLE_nbr"
      getItem c "ROW_nbr" : Except PyErr JVal) with
  | .ok v => .ok (some v)
  | .error .keyError => .ok none
  | .error e => .error e

/-- Lines 211-220 of `deploy.py`: the `isinstance` cascade.  A list is
filtered by router-id and address (`or None` turns an empty filter into
`None`); a bare dict — the collapsed single-neighbor response — is
wrapped into a one-element list WITHOUT filtering; anything else
(including the `False` sentinel) is kept as-is. -/
def nxosPeerHolder (peersO : Option JVal) (peer_id peer_address : JVal) :
    Except PyErr PeerHolder :=
  match peersO with
  | some (.arr l) => do
    let f ← filterMatches "rid" "addr" peer_id peer_address l
    .ok (if f.isEmpty then .pyNone else .plist f)
  | some (.obj fs) => .ok (.plist [.obj fs])
  | some v => .ok (.raw v)
  | none => .ok (.raw (.bool false))

/-- `NXOSNetmikoTests.ospf_peer` (deploy.py lines 178-229), from the
parsed device response on.  `interface.replace("Ethernet", "Eth")` and
the command string it feeds are kept for their failure behavior (a
non-string `interface` raises AttributeError); issuing the command is
external transport, and `resp` is its parsed output.  `_ctx` and `_pid`
are the unused `context` and `process_id` parameters. -/
def nxosOspfPeer (resp : JVal) (_ctx _pid interface peer_address peer_id : JVal) :
    Except PyErr OspfResult := do
  let _ ← pyReplace interface "Ethernet" "Eth"
  let peersO ← nxosPeers resp
  let peer ← nxosPeerHolder peersO peer_id peer_address
  ospfTail peer "state"

/-- Lines 267-269 of `deploy.py`: the EOS nested access
`r["vrfs"][context]["instList"][str(process_id)]["ospfNeighborEntries"]`,
with no try/except — any missing key raises. -/
def eosPeers (resp ctx processId : JVal) : Except PyErr JVal := do
  let a ← getItem resp "vrfs"
  let b ← getItemV a ctx
  let c ← getItem b "instList"
  let d ← getItem c (pyStrOf processId)
  getItem d "ospfNeighborEntries"

/-- `EOSNetmikoTests.ospf_peer` (deploy.py lines 241-285), from the
parsed device response on.  `_interface` only feeds the command string
(external transport).  The comprehension iterates whatever
`ospfNeighborEntries` holds, in Python iteration semantics. -/
def eosOspfPeer (resp ctx processId _interface peer_address peer_id : JVal) :
    Except PyErr OspfResult := do
  let peers ← eosPeers resp ctx processId
  let it ← pyIter peers
  let f ← filterMatches "routerId" "interfaceAddress" peer_id peer_address it
  let peer := if f.isEmpty then PeerHolder.pyNone else PeerHolder.plist f
  ospfTail peer "adjacencyState"

/-- The two test classes `netmiko_validate` can dispatch to. -/
inductive PlatClass where
  | nxos
  | eos
deriving DecidableEq, Repr

/-- The five keyword parameters of `ospf_peer`, after binding `**kwargs`
against the defaults `context="default", process_id=1, interface=None,
peer_address=None, peer_id=None`. -/
structure OspfArgs where
  ctx : JVal
  processId : JVal
  interface : JVal
  peerAddress : JVal
  peerId : JVal

/-- Parameter names accepted by `ospf_peer`. -/
def ospfParamNames : List String :=
  ["context", "process_id", "interface", "peer_address", "peer_id"]

/-- Python `f(**kwargs)` binding for `ospf_peer`: an unexpected keyword
raises TypeError; missing keywords take the declared defaults. -/
def bindOspfKwargs (kwargs : List (String × JVal)) : Except PyErr OspfArgs :=
  if kwargs.all (fun p => ospfParamNames.contains p.1) then
    .ok ⟨(kwargs.lookup "context").getD (.str "default"),
         (kwargs.lookup "process_id").getD (.num 1),
         (kwargs.lookup "interface").getD .null,
         (kwargs.lookup "peer_address").getD .null,
         (kwargs.lookup "peer_id").getD .null⟩
  else .error .typeError

/-- `getattr(_class, getter)(**kwargs)` for an assigned class: both test
classes expose exactly one test method, `ospf_peer`; any other getter
name raises AttributeError.  `resp` is the parsed output of the show
command the method sends (external transport). -/
def callTestGetter (resp : JVal) (cls : PlatClass) (getter : String)
    (kwargs : List (String × JVal)) : Except PyErr OspfResult :=
  if getter == "ospf_peer" then do
    let a ← bindOspfKwargs kwargs
    match cls with
    | .nxos => nxosOspfPeer resp a.ctx a.processId a.interface a.peerAddress a.peerId
    | .eos => eosOspfPeer resp a.ctx a.processId a.interface a.peerAddress a.peerId
  else .error .attrError

/-- One entry of the validation-source YAML: the body mapped from a
getter name.  `name` is the reserved `_name` label (a string when
present), `kwargs` the reserved `_kwargs` mapping, `expected` the
remaining expected-result keys (what is left after the two pops). -/
structure CheckBody where
  name : Option String
  kwargs : List (String × JVal)
  expected : List (String × JVal)

/-- `key = expected_results.pop("_name", "") or getter`: the empty string
(and an absent `_name`) falls back to the getter name. -/
def checkKey (getter : String) (body : CheckBody) : String :=
  match body.name with
  | some s => if s == "" then getter else s
  | none => getter

/-- The body of the inner loop of `netmiko_validate` (deploy.py lines
304-311) for one `getter: expected_results` item.  With no assigned
`_class` (platform neither nxos nor eos), reaching
`getattr(_class, getter)` raises UnboundLocalError, which the
`except NotImplementedError` clause does not catch.  A
NotImplementedError from the getter becomes the skipped verdict; the
external `npval.compare` is the `compare` parameter. -/
def netmikoCheckBody (compare : List (String × JVal) → OspfResult → JVal)
    (resp : JVal) (cls : Option PlatClass) (getter : String) (body : CheckBody) :
    Except PyErr (String × JVal) :=
  let key := checkKey getter body
  match cls with
  | none => .error .unboundLocalError
  | some c =>
    match callTestGetter resp c getter body.kwargs with
    | .error .notImplementedError =>
      .ok (key, JVal.obj [("skipped", JVal.bool true), ("reason", JVal.str "NotImplemented")])
    | .error e => .error e
    | .ok actual => .ok (key, compare body.expected actual)

/-- Python `report[key] = verdict`: overwrite an existing key in place,
else append in insertion order. -/
def reportSet (report : List (String × JVal)) (key : String) (v : JVal) :
    List (String × JVal) :=
  if report.any (fun p => p.1 == key) then
    report.map (fun p => if p.1 == key then (key, v) else p)
  else report ++ [(key, v)]

/-- The inner `for getter, expected_results in validation_check.items()`
loop of `netmiko_validate`. -/
def netmikoCheckLoop (compare : List (String × JVal) → OspfResult → JVal)
    (resp : JVal) (cls : Option PlatClass) :
    List (String × CheckBody) → List (String × JVal) →
    Except PyErr (List (String × JVal))
  | [], report => .ok report
  | (getter, body) :: items, report =>
    match netmikoCheckBody compare resp cls getter body with
    | .error e => .error e
    | .ok kv => netmikoCheckLoop compare resp cls items (reportSet report kv.1 kv.2)

/-- The outer `for validation_check in validation_source` loop of
`netmiko_validate`. -/
def netmikoLoop (compare : List (String × JVal) → OspfResult → JVal)
    (resp : JVal) (cls : Option PlatClass) :
    List (List (String × CheckBody)) → List (String × JVal) →
    Except PyErr (List (String × JVal))
  | [], report => .ok report
  | check :: rest, report =>
    match netmikoCheckLoop compare resp cls check report with
    | .error e => .error e
    | .ok report' => netmikoLoop compare resp cls rest report'

/-- `netmiko_validate` (deploy.py lines 288-312): `_class` is assigned
only for the `nxos` and `eos` platforms; the report dict is then filled
check by check.  `compare` abstracts the external
`napalm.base.validate.compare`, and `resp` the parsed device output
consumed by the dispatched getter. -/
def netmiko_validate (compare : List (String × JVal) → OspfResult → JVal)
    (resp : JVal) (platform : String) (src : List (List (String × CheckBody))) :
    Except PyErr (List (String × JVal)) :=
  let cls : Option PlatClass :=
    if platform == "nxos" then some .nxos
    else if platform == "eos" then some .eos
    else none
  netmikoLoop compare resp cls src []

/-- The inner `for test, output in data.result.items()` loop of
`determine_validate_fails` (deploy.py lines 329-335) for one host's
report: entries keyed `"skipped"` or `"complies"` (the NAPALM report's
aggregate bookkeeping keys) are passed over BY NAME; every other entry is
subscripted with `output["complies"]` — which raises when the verdict
carries no such key — and recorded when that value `is False`. -/
def detFailsHost : List (String × JVal) → Except PyErr (List String)
  | [] => .ok []
  | (test, output) :: rest =>
    if test == "skipped" then detFailsHost rest
    else if test == "complies" then detFailsHost rest
    else
      match getItem output "complies" with
      | .error e => .error e
      | .ok v =>
        match detFailsHost rest with
        | .error e => .error e
        | .ok tail => if isPyFalse v then .ok (test :: tail) else .ok tail

/-- `determine_validate_fails` (deploy.py lines 315-336) over the
aggregated per-host reports (the `{k: v[1] for ...}` extraction of each
host's validate subtask result is nornir plumbing and happens outside);
`failed_tasks.setdefault(host, []).append(test)` groups a host's failed
test names, so a host appears iff it has at least one. -/
def determine_validate_fails :
    List (String × List (String × JVal)) → Except PyErr (List (String × List String))
  | [] => .ok []
  | (host, report) :: rest =>
    match detFailsHost report with
    | .error e => .error e
    | .ok fails =>
      match determine_validate_fails rest with
      | .error e => .error e
      | .ok tail => if fails.isEmpty then .ok tail else .ok ((host, fails) :: tail)

/-- Spec-side reading (claim C1/C4 wording): a verdict is "not skipped"
when it carries no `skipped` marker. -/
def verdictNotSkipped (v : JVal) : Bool :=
  match v with
  | .obj fs => (fs.lookup "skipped").isNone
  | _ => true

/-- Spec-side reading: a verdict's `complies` key is explicitly false. -/
def verdictCompliesFalse (v : JVal) : Bool :=
  match v with
  | .obj fs =>
    match fs.lookup "complies" with
    | some x => isPyFalse x
    | none => false
  | _ => false

/-- Spec-side failed set for one host, following the claim's words: the
checks whose verdict is not skipped and whose `complies` is explicitly
false. -/
def claimFailsHost (report : List (String × JVal)) : List String :=
  (report.filter (fun q => verdictNotSkipped q.2 && verdictCompliesFalse q.2)).map Prod.fst

/-- Spec-side failed set across hosts: each host paired with its failed
checks, hosts with none omitted. -/
def claimFailedTasks (results : List (String × List (String × JVal))) :
    List (String × List String) :=
  results.filterMap (fun p =>
    let f := claimFailsHost p.2
    if f.isEmpty then none else some (p.1, f))

/-- A verdict entry on which `determine_validate_fails` is total: not one
of the bookkeeping key names, a mapping, carrying a `complies` key and no
`skipped` marker. -/
def goodVerdictEntry (q : String × JVal) : Bool :=
  !(q.1 == "skipped") && !(q.1 == "complies") &&
    (match q.2 with
     | .obj fs => (fs.lookup "skipped").isNone && (fs.lookup "complies").isSome
     | _ => false)

/-- All verdicts of all hosts are `goodVerdictEntry`. -/
def goodResults (results : List (String × List (String × JVal))) : Bool :=
  results.all (fun p => p.2.all goodVerdictEntry)

/-- The rollback push issued by the `__main__` block when the merged
failed-task dict is truthy: `nr.run(task=deploy_configs, backup=True)`
targets the whole inventory; `napalm_configure` commits because the
nornir global `dry_run` defaults to false and `deploy_configs` never
overrides it. -/
structure RollbackRun where
  targets : List String
  dryRun : Bool
  fromBackup : Bool
deriving DecidableEq, Repr

/-- Lines 381-389 of `deploy.py`: `if failed_tasks:` triggers the
fleet-wide backup redeploy; an empty dict reports success. -/
def decideRollback (failed_tasks : List (String × List String)) (hosts : List String) :
    Option RollbackRun :=
  if failed_tasks.isEmpty then none else some ⟨hosts, false, true⟩

/-- Python `{**a, **b}` on string-keyed dicts: keys of `a` in order, with
`b`'s value when `b` also has the key, then `b`'s new keys in order. -/
def mergeDicts (a b : List (String × List String)) : List (String × List String) :=
  (a.map (fun p =>
    match b.lookup p.1 with
    | some v => (p.1, v)
    | none => p))
  ++ b.filter (fun q => (a.lookup q.1).isNone)

/-- Python `text.split("\n")` over the character list: split at every
newline, keeping empty pieces; the empty text gives `[[]]`. -/
def splitLinesList : List Char → List (List Char)
  | [] => [[]]
  | c :: rest =>
    match splitLinesList rest with
    | [] => [[c]]
    | l :: ls => if c = '\n' then [] :: l :: ls else (c :: l) :: ls

/-- Python `"\n".join(lines)` over character lists. -/
def joinLinesList : List (List Char) → List Char
  | [] => []
  | [l] => l
  | l :: ls => l ++ '\n' :: joinLinesList ls

/-- `len(line) - len(line.lstrip())`: the count of leading whitespace
characters. -/
def leadWS (l : List Char) : Nat :=
  (l.takeWhile Char.isWhitespace).length

/-- The synthetic terminator inserted by the EOS branch of
`backup_configs`: `" " * (leadWS(line) - 3) + "!"`. -/
def mkTerm (line : List Char) : List Char :=
  List.replicate (leadWS line - 3) ' ' ++ ['!']

/-- The `for index, line in enumerate(infile)` loop of the EOS branch of
`backup_configs` (deploy.py lines 45-54), as a cursor over the mutated
list: `done` holds the already-visited lines in reverse, `rem` the lines
from the cursor on.  Visiting a line whose leading-whitespace count is
exactly 6 reads the following line — `infile[index + 1]` raises
IndexError when the 6-indented line is last — and when that next line's
count is not 6, inserts the terminator right after the current line.
Python's iterator then visits the freshly inserted terminator; its
leading-whitespace count is always 3, so that visit matches neither
condition arm and only advances the cursor — the insertion arm below
fuses that provably inert visit by placing the terminator directly into
`done`. -/
def normZip (done : List (List Char)) : List (List Char) → Except PyErr (List (List Char))
  | [] => .ok done.reverse
  | line :: rest =>
    if leadWS line = 6 then
      match rest with
      | [] => .error .indexError
      | next :: _ =>
        if leadWS next = 6 then normZip (line :: done) rest
        else normZip (mkTerm line :: line :: done) rest
    else normZip (line :: done) rest

/-- The EOS backup normalization pass (deploy.py lines 42-56): split on
newlines, run the insertion loop, join back. -/
def eosNormalize (s : String) : Except PyErr String :=
  match normZip [] (splitLinesList s.toList) with
  | .ok ls => .ok (String.mk (joinLinesList ls))
  | .error e => .error e

/-- The last line of the buffer does not have exactly six leading
whitespace characters (the shape on which the lookahead stays in
bounds). -/
def lastSafe (rem : List (List Char)) : Bool :=
  match rem.getLast? with
  | some l => !(leadWS l == 6)
  | none => true

/-- A configuration payload as handed to `napalm_configure`: raw bytes
(via `.encode()` or an `"rb"` file read) or text.  The `content` field
carries the underlying text in both cases so representations can be
compared. -/
inductive ConfigPayload where
  | bytes (content : String)
  | text (content : String)
deriving DecidableEq, Repr

/-- The underlying text of a payload. -/
def ConfigPayload.content : ConfigPayload → String
  | .bytes c => c
  | .text c => c

/-- Whether the payload is the raw-bytes representation. -/
def ConfigPayload.isBytes : ConfigPayload → Bool
  | .bytes _ => true
  | .text _ => false

/-- The payload selection of `deploy_configs` (deploy.py lines 112-124;
identically lines 106-118 of `after_nornir_intro_pt2.py`): on the
`"nxos"` platform the fresh config is `.encode()`d and the backup file is
reopened in `"rb"` mode, so both pushes carry bytes; every other platform
pushes text.  `hostConfig` is `task.host["config"]`, `backupFile` the
content of `backup/<hostname>`; the `napalm_configure` call itself is
external. -/
def deploy_configs (platform : String) (backup : Bool)
    (hostConfig backupFile : String) : ConfigPayload :=
  if platform == "nxos" then
    if backup = false then .bytes hostConfig else .bytes backupFile
  else
    if backup = false then .text hostConfig else .text backupFile

/-- Whether an `Except` outcome is a success. -/
def exceptIsOk {e a : Type} : Except e a → Bool
  | .ok _ => true
  | .error _ => false

/-- The stages the `__main__` block of `deploy.py` can execute, in the
order it runs them (backup first, then writing backups, rendering,
writing configs, deploying, the two validation passes, and possibly the
rollback push). -/
inductive Stage where
  | backup
  | writeBackup
  | render
  | writeConfig
  | deploy
  | validateNapalm
  | validateNetmiko
  | rollback
deriving DecidableEq, Repr

/-- Oracle inputs for one run of the `__main__` pipeline: the inventory,
which hosts fail each nornir task (task outcomes are produced by external
transport/templating/filesystem collaborators), and the per-host reports
the two validation engines hand to `determine_validate_fails`. -/
structure RunEnv where
  hosts : List String
  backupFails : String → Bool
  writeBackupFails : String → Bool
  renderFails : String → Bool
  writeConfigFails : String → Bool
  deployFails : String → Bool
  napalmResults : List (String × List (String × JVal))
  netmikoResults : List (String × List (String × JVal))
  rollbackFails : String → Bool

/-- Decidable equality for `Except`, used to evaluate outcomes on
concrete runs. -/
instance {ε α : Type} [DecidableEq ε] [DecidableEq α] : DecidableEq (Except ε α) := fun a b =>
  match a, b with
  | .ok x, .ok y =>
    if h : x = y then isTrue (by subst h; rfl)
    else isFalse (fun hh => h (by injection hh))
  | .error x, .error y =>
    if h : x = y then isTrue (by subst h; rfl)
    else isFalse (fun hh => h (by injection hh))
  | .ok _, .error _ => isFalse (fun hh => Except.noConfusion hh)
  | .error _, .ok _ => isFalse (fun hh => Except.noConfusion hh)

/-- Observable outcome of one pipeline run: the stages that executed, in
order; whether the rollback push (when issued) failed for some host; and
the process exit — `.ok code` for a normal `sys.exit`/fall-through,
`.error e` for an uncaught exception (itself a nonzero process exit). -/
structure RunOutcome where
  stages : List Stage
  rollbackFailed : Bool
  exitCode : Except PyErr Nat
deriving DecidableEq, Repr

/-- The `__main__` block of `deploy.py` (lines 339-391).  Only a backup
failure exits early (`sys.exit(1)`); write/render/deploy failures are
printed and the run continues.  `determine_validate_fails` runs at top
level, so its KeyError is an uncaught exception.  The two failed-task
dicts are merged with `{**napalm, **netmiko}`; a truthy merge triggers
the fleet-wide backup redeploy, whose own failures are printed — the
script then falls off the end, exiting 0. -/
def runPipeline (env : RunEnv) : RunOutcome :=
  if env.hosts.any env.backupFails then
    ⟨[.backup], false, .ok 1⟩
  else
    let pre : List Stage := [.backup, .writeBackup, .render, .writeConfig, .deploy]
    match determine_validate_fails env.napalmResults with
    | .error e => ⟨pre ++ [.validateNapalm], false, .error e⟩
    | .ok napalmFailed =>
      match determine_validate_fails env.netmikoResults with
      | .error e => ⟨pre ++ [.validateNapalm, .validateNetmiko], false, .error e⟩
      | .ok netmikoFailed =>
        let failed := mergeDicts napalmFailed netmikoFailed
        if failed.isEmpty then
          ⟨pre ++ [.validateNapalm, .validateNetmiko], false, .ok 0⟩
        else
          ⟨pre ++ [.validateNapalm, .validateNetmiko, .rollback],
           env.hosts.any env.rollbackFails, .ok 0⟩

/-- Spec-side result policy for the peer validators (claim C2 wording):
zero matching entries give the no-match error, exactly one gives success
with the peer's state uppercased, two or more give the multiple-match
error. -/
def ospfPolicy (ms : List JVal) (stateOf : JVal → String) : OspfResult :=
  match ms with
  | [] => .err "No matching peer found."
  | [p] => .success (stateOf p)
  | _ => .err "Multiple peer matches, something went wrong."

/-- Spec-side matcher: an entry matches when its router-id field equals
the requested peer id and its interface-address field equals the
requested peer address. -/
def entryMatches (ridKey addrKey : String) (peer_id peer_address : JVal) (p : JVal) : Bool :=
  match p with
  | .obj fs =>
    (match fs.lookup ridKey with
     | some r => pyEq r peer_id
     | none => false)
    && (match fs.lookup addrKey with
        | some a => pyEq a peer_address
        | none => false)
  | _ => false

/-- The uppercased adjacency state of a well-formed entry (uppercased
character by character, matching `pyUpper`). -/
def entryStateUpper (stateKey : String) (p : JVal) : String :=
  match p with
  | .obj fs =>
    match fs.lookup stateKey with
    | some (.str s) => String.mk (s.toList.map Char.toUpper)
    | _ => ""
  | _ => ""

/-- A neighbor entry of the expected shape: a mapping carrying the
router-id and address fields, and a string state field. -/
def goodPeerEntry (ridKey addrKey stateKey : String) (p : JVal) : Bool :=
  match p with
  | .obj fs =>
    (fs.lookup ridKey).isSome && (fs.lookup addrKey).isSome &&
      (match fs.lookup stateKey with
       | some (.str _) => true
       | _ => false)
  | _ => false

/-- A neighbor entry whose identity (rid 9.9.9.9, addr 10.0.0.9) differs
from the identity the examples request (1.1.1.1 / 10.0.0.1). -/
def exCollapsedEntry : JVal :=
  .obj [("rid", .str "9.9.9.9"), ("addr", .str "10.0.0.9"), ("state", .str "full")]

/-- An NX-OS response whose nested table collapses to the bare mapping
`exCollapsedEntry` instead of a list. -/
def exCollapsedResp : JVal :=
  .obj [("TABLE_ctx", .obj [("ROW_ctx", .obj [("TABLE_nbr", .obj [("ROW_nbr",
    exCollapsedEntry)])])])]

/-- Two list-shaped NX-OS neighbor entries; exactly the first matches the
requested identity 1.1.1.1 / 10.0.0.1. -/
def exListEntries : List JVal :=
  [.obj [("rid", .str "1.1.1.1"), ("addr", .str "10.0.0.1"), ("state", .str "full")],
   .obj [("rid", .str "2.2.2.2"), ("addr", .str "10.0.0.2"), ("state", .str "init")]]

/-- An NX-OS response whose nested table is the list `exListEntries`. -/
def exListResp : JVal :=
  .obj [("TABLE_ctx", .obj [("ROW_ctx", .obj [("TABLE_nbr", .obj [("ROW_nbr",
    .arr exListEntries)])])])]

/-- Aggregated validate results holding one skipped verdict under a real
check name (the shape `netmiko_validate` produces on
NotImplementedError). -/
def exSkippedResults : List (String × List (String × JVal)) :=
  [("den-eos-1", [("bgp_neighbor",
    JVal.obj [("skipped", JVal.bool true), ("reason", JVal.str "NotImplemented")])])]

/-- Aggregated validate results with one failing and one passing verdict. -/
def exFailResults : List (String × List (String × JVal)) :=
  [("sea-nxos-1",
    [("ospf_peer", JVal.obj [("complies", JVal.bool false), ("present", JVal.obj [])]),
     ("ntp", JVal.obj [("complies", JVal.bool true)])]),
   ("den-eos-1",
    [("ospf_peer", JVal.obj [("complies", JVal.bool true)])])]

/-- A run in which every host renders and deploys cleanly but validation
reports are empty. -/
def exEnvClean : RunEnv :=
  ⟨["sea-nxos-1", "den-eos-1"],
   fun _ => false, fun _ => false, fun _ => false, fun _ => false, fun _ => false,
   [], [], fun _ => false⟩

/-- A run in which the backup stage fails for one host. -/
def exEnvBackupFail : RunEnv :=
  ⟨["sea-nxos-1", "den-eos-1"],
   fun h => h == "sea-nxos-1",
   fun _ => false, fun _ => false, fun _ => false, fun _ => false,
   [], [], fun _ => false⟩

/-- A run in which rendering fails for one host and nothing else does. -/
def exEnvRenderFail : RunEnv :=
  ⟨["sea-nxos-1", "den-eos-1"],
   fun _ => false, fun _ => false,
   fun h => h == "sea-nxos-1",
   fun _ => false, fun _ => false,
   [], [], fun _ => false⟩

/-- A run in which validation fails for one host and the rollback push
itself then fails. -/
def exEnvRollbackFail : RunEnv :=
  ⟨["sea-nxos-1", "den-eos-1"],
   fun _ => false, fun _ => false, fun _ => false, fun _ => false, fun _ => false,
   [("sea-nxos-1", [("ntp", JVal.obj [("complies", JVal.bool false)])])],
   [],
   fun h => h == "sea-nxos-1"⟩

/-! ## Helper lemmas -/

theorem exceptBind_ok {e a b : Type} (x : a) (f : a → Except e b) :
    (Except.ok x : Except e a) >>= f = f x := rfl

theorem exceptBind_error {e a b : Type} (err : e) (f : a → Except e b) :
    (Except.error err : Except e a) >>= f = Except.error err := rfl

theorem detFailsHost_good (report : List (String × JVal))
    (h : report.all goodVerdictEntry = true) :
    detFailsHost report = .ok (claimFailsHost report) := by
  induction report with
  | nil => rfl
  | cons q rest ih =>
    rw [List.all_cons, Bool.and_eq_true] at h
    obtain ⟨hq, hrest⟩ := h
    obtain ⟨t, v⟩ := q
    cases v
    case obj fs =>
      unfold goodVerdictEntry at hq
      dsimp only at hq
      rw [Bool.and_eq_true, Bool.and_eq_true, Bool.and_eq_true] at hq
      obtain ⟨⟨hs, hc⟩, hsk, hco⟩ := hq
      rw [Bool.not_eq_true'] at hs hc
      obtain ⟨b, hb⟩ := Option.isSome_iff_exists.mp hco
      rw [Option.isNone_iff_eq_none] at hsk
      rw [detFailsHost, hs, hc]
      simp only [Bool.false_eq_true, if_false, getItem, hb, ih hrest]
      conv_rhs => rw [claimFailsHost, List.filter_cons]
      simp only [verdictNotSkipped, verdictCompliesFalse, hsk, hb,
        Option.isNone_none, Bool.true_and]
      cases hpb : isPyFalse b <;>
        simp only [hpb, Bool.false_eq_true, if_false, if_true, List.map_cons] <;> rfl
    all_goals simp [goodVerdictEntry] at hq

theorem determine_validate_fails_good (results : List (String × List (String × JVal)))
    (h : goodResults results = true) :
    determine_validate_fails results = .ok (claimFailedTasks results) := by
  induction results with
  | nil => rfl
  | cons p rest ih =>
    rw [goodResults, List.all_cons, Bool.and_eq_true] at h
    obtain ⟨hp, hrest⟩ := h
    obtain ⟨host, report⟩ := p
    rw [determine_validate_fails, detFailsHost_good report hp, ih hrest]
    conv_rhs => rw [claimFailedTasks, List.filterMap_cons]
    cases hE : (claimFailsHost report).isEmpty <;>
      simp only [hE, Bool.false_eq_true, if_false, if_true] <;> rfl

/-! ## Claim C1 -/

/-- C1, counterexample: on a result set holding a verdict that is marked
skipped (and so carries no `complies` key), `determine_validate_fails`
raises KeyError instead of producing the failed set the claim describes
(which would be empty here, with no rollback). -/
theorem c1_counterexample :
    determine_validate_fails exSkippedResults = .error .keyError
    ∧ claimFailedTasks exSkippedResults = [] :=
  ⟨rfl, rfl⟩

/-- C1 (amended): for every aggregated validation result set in which
every verdict (outside the bookkeeping key names `skipped`/`complies`) is
a mapping that carries a `complies` key and no `skipped` marker, the
failed set contains exactly the (host, check) pairs whose verdict is not
skipped and whose `complies` is explicitly false, and the backup redeploy
(dry-run disabled, issued to every host) is triggered iff that failed set
is non-empty.  Without the added hypothesis the pass aborts with KeyError
on a skipped verdict (see the counterexample). -/
theorem c1_amended_failed_set_and_rollback
    (results : List (String × List (String × JVal))) (hosts : List String)
    (h : goodResults results = true) :
    determine_validate_fails results = .ok (claimFailedTasks results)
    ∧ ((decideRollback (claimFailedTasks results) hosts).isSome = true ↔
        claimFailedTasks results ≠ [])
    ∧ (∀ r, decideRollback (claimFailedTasks results) hosts = some r →
        r = ⟨hosts, false, true⟩) := by
  refine ⟨determine_validate_fails_good results h, ?_, ?_⟩
  · by_cases hE : claimFailedTasks results = [] <;>
      simp [decideRollback, List.isEmpty_iff, hE]
  · intro r hr
    by_cases hE : claimFailedTasks results = [] <;>
      simp [decideRollback, List.isEmpty_iff, hE] at hr
    · exact hr.symm

/-- C1, witness: the amended theorem applied to a concrete result set in
which one host fails one check; the decider returns exactly that pair and
the rollback targets the whole fleet with dry-run disabled. -/
theorem c1_amended_witness :
    determine_validate_fails exFailResults = .ok [("sea-nxos-1", ["ospf_peer"])]
    ∧ decideRollback [("sea-nxos-1", ["ospf_peer"])] ["sea-nxos-1", "den-eos-1"]
      = some ⟨["sea-nxos-1", "den-eos-1"], false, true⟩ := by
  have h := c1_amended_failed_set_and_rollback exFailResults
    ["sea-nxos-1", "den-eos-1"] (by decide)
  exact ⟨h.1, rfl⟩

/-! ## Claim C4 -/

/-- C4: the claim says a skipped verdict is excluded from the failed set
without raising; the code instead subscripts it with `output["complies"]`
(the `test == "skipped"` arm filters the bookkeeping key NAME, not the
verdict marker), so the exact verdict shape `netmiko_validate` produces
on NotImplementedError raises KeyError. -/
theorem c4_skipped_verdict_raises :
    determine_validate_fails [("sea-nxos-1",
      [("ospf_peer", JVal.obj [("skipped", JVal.bool true),
                               ("reason", JVal.str "NotImplemented")])])]
    = .error .keyError := rfl

/-! ## Claim C5 -/

/-- C5: on the collapsed single-neighbor NX-OS response, `ospf_peer`
reports success with the neighbor's state even though the neighbor's
router-id (9.9.9.9) and address (10.0.0.9) differ from the requested
identity (1.1.1.1 / 10.0.0.1) — the `isinstance(peers, dict)` arm wraps
the entry without applying the match filter. -/
theorem c5_collapsed_peer_unfiltered :
    nxosOspfPeer exCollapsedResp JVal.null JVal.null (JVal.str "Ethernet1")
      (JVal.str "10.0.0.1") (JVal.str "1.1.1.1") = .ok (.success "FULL")
    ∧ entryMatches "rid" "addr" (JVal.str "1.1.1.1") (JVal.str "10.0.0.1")
        exCollapsedEntry = false :=
  ⟨rfl, rfl⟩

/-! ## Claim C8 -/

/-- C8: `deploy_configs` passes the payload as raw bytes exactly when the
platform is `"nxos"` — both for the freshly rendered config and for the
backup re-read of a rollback redeploy — and as text for every other
platform, with the carried content identical across platforms and
determined only by the backup flag. -/
theorem c8_encoding_rule (p q : String) (b : Bool) (cfg bak : String) :
    (deploy_configs p b cfg bak).content = (if b then bak else cfg)
    ∧ (deploy_configs p b cfg bak).content = (deploy_configs q b cfg bak).content
    ∧ ((deploy_configs p b cfg bak).isBytes = true ↔ p = "nxos") := by
  cases b <;> by_cases hp : p = "nxos" <;> by_cases hq : q = "nxos" <;>
    simp [deploy_configs, ConfigPayload.content, ConfigPayload.isBytes, hp, hq]

/-! ## Claim C10 -/

theorem netmikoLoop_none (compare : List (String × JVal) → OspfResult → JVal)
    (resp : JVal) (src : List (List (String × CheckBody))) :
    ∀ report, (∃ c ∈ src, c ≠ []) →
    netmikoLoop compare resp none src report = .error .unboundLocalError := by
  induction src with
  | nil => intro report h; simp at h
  | cons check rest ih =>
    intro report h
    cases check with
    | nil =>
      rw [netmikoLoop, netmikoCheckLoop]
      apply ih
      obtain ⟨c, hc, hne⟩ := h
      rcases List.mem_cons.mp hc with hceq | hcr
      · exact absurd hceq hne
      · exact ⟨c, hcr, hne⟩
    | cons item items =>
      obtain ⟨getter, body⟩ := item
      rw [netmikoLoop, netmikoCheckLoop, netmikoCheckBody]

/-- C10: for every platform other than `"nxos"` and `"eos"` and every
validation source containing at least one check item, `netmiko_validate`
hits `getattr(_class, getter)` with `_class` never assigned and raises
UnboundLocalError (not caught by the `except NotImplementedError`
clause) instead of returning a verdict report. -/
theorem c10_unbound_dispatch (compare : List (String × JVal) → OspfResult → JVal)
    (resp : JVal) (platform : String) (src : List (List (String × CheckBody)))
    (h1 : platform ≠ "nxos") (h2 : platform ≠ "eos")
    (h3 : ∃ c ∈ src, c ≠ []) :
    netmiko_validate compare resp platform src = .error .unboundLocalError := by
  have hp : (platform == "nxos") = false := beq_eq_false_iff_ne.mpr h1
  have he : (platform == "eos") = false := beq_eq_false_iff_ne.mpr h2
  have := netmikoLoop_none compare resp src [] h3
  simpa [netmiko_validate, hp, he] using this

/-- C10, witness: a concrete `"iosxr"` host with one `ospf_peer` check. -/
theorem c10_witness :
    netmiko_validate (fun _ _ => JVal.obj []) (JVal.obj []) "iosxr"
      [[("ospf_peer", ⟨none, [], []⟩)]] = .error .unboundLocalError := by
  apply c10_unbound_dispatch
  · decide
  · decide
  · exact ⟨[("ospf_peer", ⟨none, [], []⟩)], by simp, by simp⟩

/-! ## Claim C3 -/

/-- C3, counterexample: a run where rendering fails for a host is not
halted — the pipeline still executes the real deploy stage (and exits 0),
contradicting the claim that any pre-deployment failure stops the run
before deployment. -/
theorem c3_counterexample :
    exEnvRenderFail.hosts.any exEnvRenderFail.renderFails = true
    ∧ Stage.deploy ∈ (runPipeline exEnvRenderFail).stages
    ∧ (runPipeline exEnvRenderFail).exitCode = .ok 0 :=
  ⟨rfl, by decide, rfl⟩

/-- C3 (amended): only a backup-stage failure halts the run before the
real deployment stage (printing the failure and exiting 1); when the
backup stage succeeds for every host, the pipeline always reaches the
real deploy stage, regardless of render or write failures. -/
theorem c3_amended_abort_policy (env : RunEnv) :
    (env.hosts.any env.backupFails = true →
      (runPipeline env).stages = [Stage.backup] ∧ (runPipeline env).exitCode = .ok 1)
    ∧ (env.hosts.any env.backupFails = false →
      Stage.deploy ∈ (runPipeline env).stages) := by
  constructor
  · intro hb
    simp [runPipeline, hb]
  · intro hb
    rw [runPipeline, hb]
    simp only [Bool.false_eq_true, if_false]
    cases determine_validate_fails env.napalmResults with
    | error e => simp
    | ok nf =>
      cases determine_validate_fails env.netmikoResults with
      | error e => simp
      | ok mf =>
        by_cases hM : mergeDicts nf mf = [] <;> simp [hM]

/-- C3, witness: the amended theorem at a run with a failing backup (the
pipeline stops at the backup stage) and at a run with a failing render
(the deploy stage is still reached). -/
theorem c3_amended_witness :
    (runPipeline exEnvBackupFail).stages = [Stage.backup]
    ∧ Stage.deploy ∈ (runPipeline exEnvRenderFail).stages :=
  ⟨((c3_amended_abort_policy exEnvBackupFail).1 rfl).1,
   (c3_amended_abort_policy exEnvRenderFail).2 rfl⟩

/-! ## Claim C9 -/

/-- C9, counterexample: a run whose rollback push fails still exits 0 —
the script only prints the failed rollback result and falls off the end —
contradicting the claimed nonzero exit on unresolved post-rollback
failure. -/
theorem c9_counterexample :
    (runPipeline exEnvRollbackFail).rollbackFailed = true
    ∧ Stage.rollback ∈ (runPipeline exEnvRollbackFail).stages
    ∧ (runPipeline exEnvRollbackFail).exitCode = .ok 0 :=
  ⟨rfl, by decide, rfl⟩

/-- C9 (amended): the process exits 1 exactly when the backup stage fails
for some host; in every other run whose validation aggregation does not
itself raise, it exits 0 — including runs with render/write/deploy
failures, failed validations, and a failed rollback push.  (An aggregation
KeyError propagates as an uncaught exception, also a nonzero process
exit.) -/
theorem c9_amended_exit_codes (env : RunEnv) :
    ((runPipeline env).exitCode = .ok 1 ↔ env.hosts.any env.backupFails = true)
    ∧ (env.hosts.any env.backupFails = false →
        exceptIsOk (determine_validate_fails env.napalmResults) = true →
        exceptIsOk (determine_validate_fails env.netmikoResults) = true →
        (runPipeline env).exitCode = .ok 0) := by
  cases hb : env.hosts.any env.backupFails with
  | true => simp [runPipeline, hb]
  | false =>
    rw [runPipeline, hb]
    simp only [Bool.false_eq_true, if_false]
    cases determine_validate_fails env.napalmResults with
    | error e => simp [exceptIsOk]
    | ok nf =>
      cases determine_validate_fails env.netmikoResults with
      | error e => simp [exceptIsOk]
      | ok mf =>
        by_cases hM : mergeDicts nf mf = [] <;> simp [hM, exceptIsOk]

/-- C9, witness: the amended theorem at a failing-backup run (exit 1) and
at the failed-rollback run (exit 0 despite the failed push). -/
theorem c9_amended_witness :
    (runPipeline exEnvBackupFail).exitCode = .ok 1
    ∧ (runPipeline exEnvRollbackFail).exitCode = .ok 0 :=
  ⟨(c9_amended_exit_codes exEnvBackupFail).1.mpr rfl,
   (c9_amended_exit_codes exEnvRollbackFail).2 rfl rfl rfl⟩

/-! ## Claims C6 and C7: the backup normalizer -/

theorem splitLinesList_ne_nil (cs : List Char) : splitLinesList cs ≠ [] := by
  cases cs with
  | nil => simp [splitLinesList]
  | cons c rest =>
    rw [splitLinesList]
    cases h : splitLinesList rest with
    | nil => simp
    | cons l ls =>
      dsimp only
      split <;> simp

theorem joinLinesList_singleton (l : List Char) : joinLinesList [l] = l := rfl

theorem joinLinesList_cons_cons (l y : List Char) (ys : List (List Char)) :
    joinLinesList (l :: y :: ys) = l ++ '\n' :: joinLinesList (y :: ys) := rfl

theorem joinLinesList_splitLinesList (cs : List Char) :
    joinLinesList (splitLinesList cs) = cs := by
  induction cs with
  | nil => rfl
  | cons c rest ih =>
    cases h : splitLinesList rest with
    | nil => exact absurd h (splitLinesList_ne_nil rest)
    | cons l ls =>
      rw [h] at ih
      by_cases hc : c = '\n'
      · subst hc
        rw [splitLinesList, h]
        dsimp only
        rw [if_pos rfl, joinLinesList_cons_cons, ih]
        rfl
      · rw [splitLinesList, h]
        dsimp only
        rw [if_neg hc]
        cases ls with
        | nil =>
          rw [joinLinesList_singleton]
          rw [joinLinesList_singleton] at ih
          rw [ih]
        | cons y ys =>
          rw [joinLinesList_cons_cons]
          rw [joinLinesList_cons_cons] at ih
          rw [List.cons_append, ih]

theorem normZip_noSix (rem : List (List Char)) :
    ∀ done, rem.all (fun l => !(leadWS l == 6)) = true →
    normZip done rem = .ok (done.reverse ++ rem) := by
  induction rem with
  | nil => intro done _; simp [normZip]
  | cons line rest ih =>
    intro done h
    rw [List.all_cons, Bool.and_eq_true] at h
    obtain ⟨hl, hrest⟩ := h
    have hl6 : ¬(leadWS line = 6) := by simpa using hl
    rw [normZip.eq_def]
    dsimp only
    rw [if_neg hl6, ih (line :: done) hrest]
    simp

/-- The string-level normalization pass is the identity on texts with no
six-space-indented line. -/
theorem eosNormalize_noSix (s : String)
    (h : (splitLinesList s.toList).all (fun l => !(leadWS l == 6)) = true) :
    eosNormalize s = .ok s := by
  rw [eosNormalize, normZip_noSix _ [] h]
  dsimp only
  rw [List.reverse_nil, List.nil_append, joinLinesList_splitLinesList]
  rfl

/-! ## Claim C6 -/

/-- C6, counterexample: the terminator pass is not idempotent — the
terminator it inserts is indented three spaces, so on a second run the
six-space clause line is again followed by a non-six-indented line and a
second terminator is inserted. -/
theorem c6_counterexample :
    eosNormalize "      a\nb" = .ok "      a\n   !\nb"
    ∧ eosNormalize "      a\n   !\nb" = .ok "      a\n   !\n   !\nb"
    ∧ ("      a\n   !\n   !\nb" : String) ≠ "      a\n   !\nb" :=
  ⟨rfl, rfl, by decide⟩

/-- C6 (amended): the pass is a no-op — and hence trivially idempotent —
on backup texts with no six-space-indented line; in general, a second
application inserts a further terminator after every six-space-indented
clause line (see the counterexample), so running the pass twice on its
own output is not a no-op. -/
theorem c6_amended_noop_without_six_indent (s : String)
    (h : (splitLinesList s.toList).all (fun l => !(leadWS l == 6)) = true) :
    eosNormalize s = .ok s
    ∧ Except.bind (eosNormalize s) eosNormalize = .ok s := by
  have h1 := eosNormalize_noSix s h
  refine ⟨h1, ?_⟩
  rw [h1]
  exact h1

/-- C6, witness: a two-line text with no six-space-indented line. -/
theorem c6_amended_witness :
    eosNormalize "interface Ethernet1\n   ip address 10.0.0.1/31"
      = .ok "interface Ethernet1\n   ip address 10.0.0.1/31" :=
  (c6_amended_noop_without_six_indent _ (by decide)).1

/-! ## Claim C7 -/

/-- C7, counterexample: a six-space-indented clause occupying the very
last line makes the pass read `infile[index + 1]` past the end of the
list and fail with IndexError, instead of being left uncovered as the
claim states. -/
theorem c7_counterexample :
    eosNormalize "      ip address 10.0.0.1/31" = .error .indexError := rfl

theorem normZip_lastSafe (rem : List (List Char)) :
    ∀ done, lastSafe rem = true → ∃ out, normZip done rem = .ok out := by
  induction rem with
  | nil => intro done _; exact ⟨done.reverse, rfl⟩
  | cons line rest ih =>
    intro done h
    by_cases h6 : leadWS line = 6
    · cases rest with
      | nil =>
        exfalso
        rw [lastSafe] at h
        simp [List.getLast?] at h
        exact h h6
      | cons next rest2 =>
        have hrest : lastSafe (next :: rest2) = true := by
          rw [lastSafe] at h ⊢
          rwa [List.getLast?_cons_cons] at h
        by_cases h7 : leadWS next = 6
        · obtain ⟨out, hout⟩ := ih (line :: done) hrest
          refine ⟨out, ?_⟩
          rw [normZip.eq_def]
          dsimp only
          rw [if_pos h6, if_pos h7]
          exact hout
        · obtain ⟨out, hout⟩ := ih (mkTerm line :: line :: done) hrest
          refine ⟨out, ?_⟩
          rw [normZip.eq_def]
          dsimp only
          rw [if_pos h6, if_neg h7]
          exact hout
    · have hrest : lastSafe rest = true := by
        cases rest with
        | nil => rfl
        | cons a b =>
          rw [lastSafe] at h ⊢
          rwa [List.getLast?_cons_cons] at h
      obtain ⟨out, hout⟩ := ih (line :: done) hrest
      refine ⟨out, ?_⟩
      rw [normZip.eq_def]
      dsimp only
      rw [if_neg h6]
      exact hout

/-- C7 (amended): the pass never inserts past the end of the sequence
(every insertion happens between the clause line and its existing
successor), but it does read one line past each six-space-indented line:
when the final line has exactly six leading spaces, the lookahead raises
IndexError (see the counterexample); on every text whose final line is
not six-space-indented the pass completes without any out-of-bounds
access. -/
theorem c7_amended_last_line_guard (s : String)
    (h : lastSafe (splitLinesList s.toList) = true) :
    ∃ out, eosNormalize s = .ok out := by
  obtain ⟨out, hout⟩ := normZip_lastSafe (splitLinesList s.toList) [] h
  exact ⟨String.mk (joinLinesList out), by rw [eosNormalize, hout]⟩

/-- C7, witness: a text ending in an unindented line is normalized
without an out-of-bounds access. -/
theorem c7_amended_witness :
    ∃ out, eosNormalize "      ip address 10.0.0.1/31\nend" = .ok out :=
  c7_amended_last_line_guard _ (by decide)

/-! ## Claim C2 -/

theorem filterMatches_good (ridKey addrKey stateKey : String) (pid pa : JVal)
    (l : List JVal) (h : l.all (goodPeerEntry ridKey addrKey stateKey) = true) :
    filterMatches ridKey addrKey pid pa l
      = .ok (l.filter (entryMatches ridKey addrKey pid pa)) := by
  induction l with
  | nil => rfl
  | cons p rest ih =>
    rw [List.all_cons, Bool.and_eq_true] at h
    obtain ⟨hp, hrest⟩ := h
    cases p
    case obj fs =>
      unfold goodPeerEntry at hp
      rw [Bool.and_eq_true, Bool.and_eq_true] at hp
      obtain ⟨⟨hr, ha⟩, _⟩ := hp
      obtain ⟨r, hrv⟩ := Option.isSome_iff_exists.mp hr
      obtain ⟨a, hav⟩ := Option.isSome_iff_exists.mp ha
      rw [filterMatches]
      simp only [getItem, hrv, hav, Except.bind, ih hrest, List.filter_cons,
        entryMatches]
      cases hpr : pyEq r pid with
      | false => simp [hpr, exceptBind_ok]
      | true =>
        cases hpa : pyEq a pa with
        | false => simp [hpr, hpa, exceptBind_ok]
        | true => simp [hpr, hpa, exceptBind_ok]
    all_goals simp [goodPeerEntry] at hp

theorem ospfTail_policy (ridKey addrKey stateKey : String) (f : List JVal)
    (h : f.all (goodPeerEntry ridKey addrKey stateKey) = true) :
    ospfTail (if f.isEmpty then PeerHolder.pyNone else PeerHolder.plist f) stateKey
      = .ok (ospfPolicy f (entryStateUpper stateKey)) := by
  cases f with
  | nil => rfl
  | cons x xs =>
    rw [List.all_cons, Bool.and_eq_true] at h
    obtain ⟨hx, _⟩ := h
    cases x
    case obj gs =>
      unfold goodPeerEntry at hx
      rw [Bool.and_eq_true, Bool.and_eq_true] at hx
      obtain ⟨⟨_, _⟩, hst⟩ := hx
      cases hlv : List.lookup stateKey gs with
      | none => rw [hlv] at hst; exact absurd hst (by decide)
      | some v =>
        rw [hlv] at hst
        cases v
        case str st =>
          cases xs with
          | nil =>
            simp [ospfTail, holderTruthy, holderLen, holderGetFirst, getItem,
              hlv, pyUpper, ospfPolicy, entryStateUpper]
          | cons y ys => rfl
        all_goals simp at hst
    all_goals simp [goodPeerEntry] at hx

/-- C2, counterexample: the EOS variant dereferences the nested response
path without any guard, so an unexpected (here: empty) parsed response
raises KeyError instead of producing a result dict — the claim's "never
raises an exception on an unexpected response shape" fails. -/
theorem c2_counterexample :
    eosOspfPeer (JVal.obj []) (JVal.str "default") (JVal.num 1)
      (JVal.str "Ethernet1") (JVal.str "10.0.0.1") (JVal.str "1.1.1.1")
    = .error .keyError := rfl

/-- C2 (amended): on parsed responses whose neighbor entries resolve to a
list of well-formed entries — or, on NX-OS, whose nested lookup fails
with KeyError, treated as zero entries — each `ospf_peer` variant follows
the claimed result policy: the no-match error on zero matching entries,
`{success: {state: <state uppercased>}}` on exactly one, and the
multiple-match error on two or more.  On other shapes the methods can
raise (the EOS nested access is unguarded — see the counterexample) and
the NX-OS collapsed single-mapping response bypasses the match filter
(claim C5). -/
theorem c2_amended_result_policy :
    (∀ (resp : JVal) (i : String) (pa pid : JVal) (entries : List JVal),
       nxosPeers resp = .ok (some (.arr entries)) →
       entries.all (goodPeerEntry "rid" "addr" "state") = true →
       nxosOspfPeer resp JVal.null JVal.null (.str i) pa pid =
         .ok (ospfPolicy (entries.filter (entryMatches "rid" "addr" pid pa))
               (entryStateUpper "state")))
    ∧ (∀ (resp : JVal) (i : String) (pa pid : JVal),
       nxosPeers resp = .ok none →
       nxosOspfPeer resp JVal.null JVal.null (.str i) pa pid =
         .ok (.err "No matching peer found."))
    ∧ (∀ (resp ctx processId iv pa pid : JVal) (entries : List JVal),
       eosPeers resp ctx processId = .ok (.arr entries) →
       entries.all (goodPeerEntry "routerId" "interfaceAddress" "adjacencyState") = true →
       eosOspfPeer resp ctx processId iv pa pid =
         .ok (ospfPolicy (entries.filter (entryMatches "routerId" "interfaceAddress" pid pa))
               (entryStateUpper "adjacencyState"))) := by
  refine ⟨?_, ?_, ?_⟩
  · intro resp i pa pid entries hp hg
    have hgf : (entries.filter (entryMatches "rid" "addr" pid pa)).all
        (goodPeerEntry "rid" "addr" "state") = true := by
      rw [List.all_eq_true] at hg ⊢
      intro x hx
      exact hg x (List.mem_of_mem_filter hx)
    rw [nxosOspfPeer]
    simp only [pyReplace, exceptBind_ok, hp, nxosPeerHolder,
      filterMatches_good "rid" "addr" "state" pid pa entries hg]
    exact ospfTail_policy "rid" "addr" "state" _ hgf
  · intro resp i pa pid hp
    rw [nxosOspfPeer]
    simp only [pyReplace, exceptBind_ok, hp, nxosPeerHolder]
    rfl
  · intro resp ctx processId iv pa pid entries hp hg
    have hgf : (entries.filter (entryMatches "routerId" "interfaceAddress" pid pa)).all
        (goodPeerEntry "routerId" "interfaceAddress" "adjacencyState") = true := by
      rw [List.all_eq_true] at hg ⊢
      intro x hx
      exact hg x (List.mem_of_mem_filter hx)
    rw [eosOspfPeer]
    simp only [hp, exceptBind_ok, pyIter,
      filterMatches_good "routerId" "interfaceAddress" "adjacencyState" pid pa entries hg]
    exact ospfTail_policy "routerId" "interfaceAddress" "adjacencyState" _ hgf

/-- C2, witness: the list-shaped NX-OS response with exactly one matching
entry yields success with the uppercased state. -/
theorem c2_amended_witness :
    nxosOspfPeer exListResp JVal.null JVal.null (JVal.str "Ethernet1")
      (JVal.str "10.0.0.1") (JVal.str "1.1.1.1") = .ok (.success "FULL") := by
  have h := c2_amended_result_policy.1 exListResp "Ethernet1"
    (JVal.str "10.0.0.1") (JVal.str "1.1.1.1") exListEntries rfl (by decide)
  exact h
